import Mathlib

/-!
Shallow embedding of the rate-limiter / streaming-coordinator core of the
ai-avatar-extension repository.

Conventions of the embedding:
* JavaScript numbers that carry money or fractional estimates are modelled
  as `ℚ`; token counts, request counts and millisecond timestamps are `Nat`
  or `Int`.  (All arithmetic the verified claims exercise is exact.)
* JavaScript objects used as string-keyed maps (`models`,
  `modelBreakdown`) are association lists `List (String × _)`.
* A JavaScript truthiness test on a limit field (`limits.tokens && ...`)
  is embedded as "the field is present and nonzero".
* `await` boundaries are the suspension points of the single-threaded
  cooperative scheduler; code between two `await`s runs atomically.
* Chrome storage I/O is not modelled: the in-memory state is authoritative
  (the source treats persistence as best effort).
-/

namespace RateLimiter

/-- The `{ prompt, completion, total }` token-count record. -/
structure TokenCounts where
  prompt : Nat
  completion : Nat
  total : Nat
  deriving Repr, DecidableEq

/-- One `modelBreakdown` entry: `{ tokens, requests, cost }`. -/
structure ModelUsage where
  tokens : TokenCounts
  requests : Nat
  cost : ℚ
  deriving Repr, DecidableEq

/-- The `usage.daily` scope, keyed by calendar date (`YYYY-MM-DD`). -/
structure DailyUsage where
  date : String
  tokens : TokenCounts
  requests : Nat
  cost : ℚ
  modelBreakdown : List (String × ModelUsage)
  deriving Repr, DecidableEq

/-- The `usage.monthly` scope, keyed by calendar month (`YYYY-MM`). -/
structure MonthlyUsage where
  month : String
  tokens : TokenCounts
  requests : Nat
  cost : ℚ
  modelBreakdown : List (String × ModelUsage)
  deriving Repr, DecidableEq

/-- The `usage.minutely` sliding window of request timestamps (ms). -/
structure MinutelyUsage where
  timestamp : Int
  requests : List Int
  deriving Repr, DecidableEq

/-- The `usage.lifetime` scope (never reset). -/
structure LifetimeUsage where
  tokens : TokenCounts
  requests : Nat
  cost : ℚ
  startDate : String
  modelBreakdown : List (String × ModelUsage)
  deriving Repr, DecidableEq

/-- The full persisted usage ledger. -/
structure Usage where
  daily : DailyUsage
  monthly : MonthlyUsage
  minutely : MinutelyUsage
  lifetime : LifetimeUsage
  deriving Repr, DecidableEq

/-- Per-model pricing entry: `{ prompt, completion, contextWindow }`
(rates are per 1K tokens). -/
structure ModelConfig where
  prompt : ℚ
  completion : ℚ
  contextWindow : Nat
  deriving Repr, DecidableEq

/-- Daily or monthly limit triple; a missing entry (`none`) is the
JavaScript `null`/absent field. -/
structure PeriodLimits where
  tokens : Option Nat
  requests : Option Nat
  cost : Option ℚ
  deriving Repr, DecidableEq

/-- The `perMinute` limit (a plain number in the source). -/
structure MinuteLimits where
  requests : Nat
  deriving Repr, DecidableEq

/-- The `limits` configuration object. -/
structure Limits where
  daily : PeriodLimits
  monthly : PeriodLimits
  perMinute : MinuteLimits
  deriving Repr, DecidableEq

/-- The mutable fields of a `RateLimiter` instance. -/
structure State where
  models : List (String × ModelConfig)
  limits : Limits
  usage : Usage
  initDone : Bool
  deriving Repr, DecidableEq

/-- The default `config.models` table from the constructor. -/
def defaultModels : List (String × ModelConfig) :=
  [ ("gpt-4", ⟨3/100, 6/100, 8192⟩),
    ("gpt-4-turbo", ⟨1/100, 3/100, 128000⟩),
    ("gpt-3.5-turbo", ⟨5/10000, 15/10000, 16385⟩),
    ("claude-3-opus", ⟨15/1000, 75/1000, 200000⟩),
    ("claude-3-sonnet", ⟨3/1000, 15/1000, 200000⟩),
    ("claude-3-haiku", ⟨25/100000, 125/100000, 200000⟩) ]

/-- The default `config.limits` from the constructor. -/
def defaultLimits : Limits :=
  { daily := ⟨some 100000, some 1000, some 10⟩,
    monthly := ⟨some 2000000, some 20000, some 200⟩,
    perMinute := ⟨20⟩ }

/-- `createEmptyUsage`, parametrised by the wall clock readings the source
takes from `new Date()` / `Date.now()`. -/
def createEmptyUsage (date month startDate : String) (nowMs : Int) : Usage :=
  { daily := ⟨date, ⟨0, 0, 0⟩, 0, 0, []⟩,
    monthly := ⟨month, ⟨0, 0, 0⟩, 0, 0, []⟩,
    minutely := ⟨nowMs, []⟩,
    lifetime := ⟨⟨0, 0, 0⟩, 0, 0, startDate, []⟩ }

/-- Whitespace class of the `/\s+/` separator (the characters that occur
in the strings the development evaluates). -/
def isJsWhitespace (c : Char) : Bool :=
  c = ' ' || c = '\t' || c = '\n' || c = '\r'

/-- Number of maximal whitespace runs in a character list; the flag says
whether the previous character was whitespace. -/
def wsRunsAux : Bool → List Char → Nat
  | _, [] => 0
  | inWs, c :: cs =>
    if isJsWhitespace c then (if inWs then 0 else 1) + wsRunsAux true cs
    else wsRunsAux false cs

/-- `text.split(/\s+/).length` for nonempty `text`: one more than the
number of separator matches (each maximal whitespace run is one match). -/
def jsSplitWsLength (text : String) : Nat :=
  wsRunsAux false text.toList + 1

/-- `countTokens`: 0 for falsy text, else
`Math.ceil((words*1.3 + chars/4)/2)`. -/
def countTokens (text : String) : Nat :=
  if text = "" then 0
  else
    let words : ℚ := jsSplitWsLength text
    let chars : ℚ := text.length
    Nat.ceil ((words * (13/10) + chars / 4) / 2)

/-- `calculateCost`: unknown model logs a warning and costs 0; otherwise
`(promptTokens/1000)*rate.prompt + (completionTokens/1000)*rate.completion`. -/
def calculateCost (models : List (String × ModelConfig)) (model : String)
    (promptTokens completionTokens : Nat) : ℚ :=
  match models.lookup model with
  | none => 0
  | some modelConfig =>
      (promptTokens / 1000 : ℚ) * modelConfig.prompt
        + (completionTokens / 1000 : ℚ) * modelConfig.completion

/-- The `limitType` strings of the admission checker. -/
inductive LimitType
  | rate
  | daily_tokens
  | daily_requests
  | daily_cost
  | monthly_tokens
  | monthly_requests
  | monthly_cost
  | context
  deriving Repr, DecidableEq

/-- Result object of `checkRequest` and its sub-checks: either
`{ allowed: false, limitType, retryAfter? }` or `{ allowed: true, ... }`
(the estimate fields are attached only by `checkRequest` itself). -/
inductive CheckResult
  | denied (limitType : LimitType) (retryAfter : Option Int)
  | allowedWith (estimatedTokens : Option TokenCounts) (estimatedCost : Option ℚ)
  deriving Repr, DecidableEq

/-- Truthiness of a numeric limit field: present and nonzero. -/
def truthyNat (l : Option Nat) : Bool :=
  match l with
  | none => false
  | some v => v ≠ 0

/-- Truthiness of a cost limit field: present and nonzero. -/
def truthyQ (l : Option ℚ) : Bool :=
  match l with
  | none => false
  | some v => v ≠ 0

/-- `checkMinuteLimit` (`nowMs` is the `Date.now()` it reads for
`retryAfter`; the source's `Math.min` over a nonempty window is the list
minimum, and an empty window cannot trip the `>=` test unless the limit
is 0, in which case the ill-defined JS value is modelled as `none`). -/
def checkMinuteLimit (st : State) (nowMs : Int) : CheckResult :=
  let currentRequests := st.usage.minutely.requests.length
  if currentRequests ≥ st.limits.perMinute.requests then
    .denied .rate
      (match st.usage.minutely.requests.min? with
       | some m => some (60 - (nowMs - m) / 1000)
       | none => none)
  else
    .allowedWith none none

/-- `checkDailyLimits`. -/
def checkDailyLimits (st : State) (tokens : Nat) (cost : ℚ) : CheckResult :=
  let daily := st.usage.daily
  let limits := st.limits.daily
  if truthyNat limits.tokens ∧ daily.tokens.total + tokens > limits.tokens.getD 0 then
    .denied .daily_tokens none
  else if truthyNat limits.requests ∧ daily.requests + 1 > limits.requests.getD 0 then
    .denied .daily_requests none
  else if truthyQ limits.cost ∧ daily.cost + cost > limits.cost.getD 0 then
    .denied .daily_cost none
  else
    .allowedWith none none

/-- `checkMonthlyLimits`. -/
def checkMonthlyLimits (st : State) (tokens : Nat) (cost : ℚ) : CheckResult :=
  let monthly := st.usage.monthly
  let limits := st.limits.monthly
  if truthyNat limits.tokens ∧ monthly.tokens.total + tokens > limits.tokens.getD 0 then
    .denied .monthly_tokens none
  else if truthyNat limits.requests ∧ monthly.requests + 1 > limits.requests.getD 0 then
    .denied .monthly_requests none
  else if truthyQ limits.cost ∧ monthly.cost + cost > limits.cost.getD 0 then
    .denied .monthly_cost none
  else
    .allowedWith none none

/-- Argument object of `checkRequest` (`estimatedCompletion` defaults to
500 at the call sites that omit it). -/
structure RequestInfo where
  model : String
  prompt : String
  estimatedCompletion : Nat
  deriving Repr, DecidableEq

/-- The body of `checkRequest` after its `initialize()` await: per-minute
check, daily checks, monthly checks, then the context-window check. -/
def checkRequest (st : State) (req : RequestInfo) (nowMs : Int) : CheckResult :=
  let promptTokens := countTokens req.prompt
  let totalTokens := promptTokens + req.estimatedCompletion
  let estimatedCost := calculateCost st.models req.model promptTokens req.estimatedCompletion
  match checkMinuteLimit st nowMs with
  | .denied t r => .denied t r
  | .allowedWith _ _ =>
  match checkDailyLimits st totalTokens estimatedCost with
  | .denied t r => .denied t r
  | .allowedWith _ _ =>
  match checkMonthlyLimits st totalTokens estimatedCost with
  | .denied t r => .denied t r
  | .allowedWith _ _ =>
  match st.models.lookup req.model with
  | some modelConfig =>
      if countTokens req.prompt > modelConfig.contextWindow then
        .denied .context none
      else
        .allowedWith (some ⟨promptTokens, req.estimatedCompletion, totalTokens⟩)
          (some estimatedCost)
  | none =>
      .allowedWith (some ⟨promptTokens, req.estimatedCompletion, totalTokens⟩)
        (some estimatedCost)

/-- Argument object of `recordUsage`. -/
structure UsageInfo where
  model : String
  promptTokens : Nat
  completionTokens : Nat
  deriving Repr, DecidableEq

/-- The zero `modelBreakdown` entry the source inserts before a first
increment for a model. -/
def emptyModelUsage : ModelUsage :=
  ⟨⟨0, 0, 0⟩, 0, 0⟩

/-- The increments `recordUsage` applies to one token-count record. -/
def bumpTokens (t : TokenCounts) (promptTokens completionTokens totalTokens : Nat) :
    TokenCounts :=
  ⟨t.prompt + promptTokens, t.completion + completionTokens, t.total + totalTokens⟩

/-- The increments `recordUsage` applies to one `modelBreakdown` entry. -/
def bumpModelUsage (m : ModelUsage) (promptTokens completionTokens totalTokens : Nat)
    (cost : ℚ) : ModelUsage :=
  ⟨bumpTokens m.tokens promptTokens completionTokens totalTokens,
   m.requests + 1, m.cost + cost⟩

/-- `modelBreakdown` update: insert a zero entry if the model key is
absent, then apply the increments to that key's entry. -/
def bumpBreakdown (bd : List (String × ModelUsage)) (model : String)
    (promptTokens completionTokens totalTokens : Nat) (cost : ℚ) :
    List (String × ModelUsage) :=
  let bd :=
    match bd.lookup model with
    | none => bd ++ [(model, emptyModelUsage)]
    | some _ => bd
  bd.map fun e =>
    if e.1 = model then
      (e.1, bumpModelUsage e.2 promptTokens completionTokens totalTokens cost)
    else e

/-- The body of `recordUsage` after its `initialize()` await: increment
daily, monthly and lifetime scopes and their breakdowns, push `now` onto
the minutely window and prune entries older than 60s.  This whole block
contains no `await`, so it is one atomic step of the cooperative
scheduler (persistence follows it). -/
def recordUsageCore (models : List (String × ModelConfig)) (u : Usage)
    (info : UsageInfo) (nowMs : Int) : Usage :=
  let totalTokens := info.promptTokens + info.completionTokens
  let cost := calculateCost models info.model info.promptTokens info.completionTokens
  let daily :=
    { u.daily with
      tokens := bumpTokens u.daily.tokens info.promptTokens info.completionTokens totalTokens,
      requests := u.daily.requests + 1,
      cost := u.daily.cost + cost,
      modelBreakdown := bumpBreakdown u.daily.modelBreakdown info.model
        info.promptTokens info.completionTokens totalTokens cost }
  let monthly :=
    { u.monthly with
      tokens := bumpTokens u.monthly.tokens info.promptTokens info.completionTokens totalTokens,
      requests := u.monthly.requests + 1,
      cost := u.monthly.cost + cost,
      modelBreakdown := bumpBreakdown u.monthly.modelBreakdown info.model
        info.promptTokens info.completionTokens totalTokens cost }
  let lifetime :=
    { u.lifetime with
      tokens := bumpTokens u.lifetime.tokens info.promptTokens info.completionTokens totalTokens,
      requests := u.lifetime.requests + 1,
      cost := u.lifetime.cost + cost,
      modelBreakdown := bumpBreakdown u.lifetime.modelBreakdown info.model
        info.promptTokens info.completionTokens totalTokens cost }
  let minutely :=
    { u.minutely with
      requests := (u.minutely.requests ++ [nowMs]).filter fun t => t > nowMs - 60000 }
  { daily := daily, monthly := monthly, minutely := minutely, lifetime := lifetime }

/-- The fresh zeroed daily scope `checkAndResetPeriods` installs. -/
def freshDaily (currentDate : String) : DailyUsage :=
  ⟨currentDate, ⟨0, 0, 0⟩, 0, 0, []⟩

/-- The fresh zeroed monthly scope `checkAndResetPeriods` installs. -/
def freshMonthly (currentMonth : String) : MonthlyUsage :=
  ⟨currentMonth, ⟨0, 0, 0⟩, 0, 0, []⟩

/-- `checkAndResetPeriods`: replace a scope whose stored period key
differs from the current wall-clock date/month by a fresh zeroed scope
stamped with the new key. -/
def checkAndResetPeriods (u : Usage) (currentDate currentMonth : String) : Usage :=
  let u := if u.daily.date ≠ currentDate then { u with daily := freshDaily currentDate } else u
  if u.monthly.month ≠ currentMonth then { u with monthly := freshMonthly currentMonth } else u

/-- Period argument of `resetUsage`. -/
inductive Period
  | daily
  | monthly
  deriving Repr, DecidableEq

/-- `resetUsage(period)`: zero the selected scope, stamped with the
current date/month. -/
def resetUsage (u : Usage) (period : Period) (currentDate currentMonth : String) : Usage :=
  match period with
  | .daily => { u with daily := freshDaily currentDate }
  | .monthly => { u with monthly := freshMonthly currentMonth }

/-- `initialize()`: a no-op once `initialized` is set; on the first call
it loads the stored usage (the in-memory `usage` here) and runs
`checkAndResetPeriods` on it.  Later calls never reach
`checkAndResetPeriods` again. -/
def initStep (st : State) (currentDate currentMonth : String) : State :=
  if st.initDone then st
  else
    { st with
      usage := checkAndResetPeriods st.usage currentDate currentMonth,
      initDone := true }

/-- `checkRequest` as called: `await this.initialize()` followed by the
admission checks, reading whatever ledger `initialize` left in place. -/
def checkRequestEntry (st : State) (req : RequestInfo)
    (currentDate currentMonth : String) (nowMs : Int) : State × CheckResult :=
  let st := initStep st currentDate currentMonth
  (st, checkRequest st req nowMs)

/-- `recordUsage` as called: `await this.initialize()` followed by the
counter increments, writing into whatever ledger `initialize` left in
place. -/
def recordUsageEntry (st : State) (info : UsageInfo)
    (currentDate currentMonth : String) (nowMs : Int) : State :=
  let st := initStep st currentDate currentMonth
  { st with usage := recordUsageCore st.models st.usage info nowMs }

/-- The denial kind of an admission decision, if any. -/
def admissionKind (r : CheckResult) : Option LimitType :=
  match r with
  | .denied t _ => some t
  | .allowedWith _ _ => none

/-- Spec-side admission order, with the claim's own enabledness reading:
a limit participates whenever it is non-null (`isSome`), and the first
violated one in the fixed order per-minute, daily
tokens→requests→cost, monthly likewise, context gives the denial
kind. -/
def specFirstViolatedNonNull (st : State) (req : RequestInfo) : Option LimitType :=
  let promptTokens := countTokens req.prompt
  let totalTokens := promptTokens + req.estimatedCompletion
  let estimatedCost := calculateCost st.models req.model promptTokens req.estimatedCompletion
  if st.usage.minutely.requests.length ≥ st.limits.perMinute.requests then some .rate
  else if (st.limits.daily.tokens).isSome
      ∧ st.usage.daily.tokens.total + totalTokens > (st.limits.daily.tokens).getD 0 then
    some .daily_tokens
  else if (st.limits.daily.requests).isSome
      ∧ st.usage.daily.requests + 1 > (st.limits.daily.requests).getD 0 then
    some .daily_requests
  else if (st.limits.daily.cost).isSome
      ∧ st.usage.daily.cost + estimatedCost > (st.limits.daily.cost).getD 0 then
    some .daily_cost
  else if (st.limits.monthly.tokens).isSome
      ∧ st.usage.monthly.tokens.total + totalTokens > (st.limits.monthly.tokens).getD 0 then
    some .monthly_tokens
  else if (st.limits.monthly.requests).isSome
      ∧ st.usage.monthly.requests + 1 > (st.limits.monthly.requests).getD 0 then
    some .monthly_requests
  else if (st.limits.monthly.cost).isSome
      ∧ st.usage.monthly.cost + estimatedCost > (st.limits.monthly.cost).getD 0 then
    some .monthly_cost
  else if (match st.models.lookup req.model with
           | some mc => decide (promptTokens > mc.contextWindow)
           | none => false) then
    some .context
  else none

/-- Spec-side admission order as the code enforces it: same fixed order
and precedence, but a limit participates only when it is non-null and
nonzero (JavaScript truthiness, a zero limit acting as unlimited). -/
def specFirstViolatedEnabled (st : State) (req : RequestInfo) : Option LimitType :=
  let promptTokens := countTokens req.prompt
  let totalTokens := promptTokens + req.estimatedCompletion
  let estimatedCost := calculateCost st.models req.model promptTokens req.estimatedCompletion
  if st.usage.minutely.requests.length ≥ st.limits.perMinute.requests then some .rate
  else if truthyNat st.limits.daily.tokens
      ∧ st.usage.daily.tokens.total + totalTokens > (st.limits.daily.tokens).getD 0 then
    some .daily_tokens
  else if truthyNat st.limits.daily.requests
      ∧ st.usage.daily.requests + 1 > (st.limits.daily.requests).getD 0 then
    some .daily_requests
  else if truthyQ st.limits.daily.cost
      ∧ st.usage.daily.cost + estimatedCost > (st.limits.daily.cost).getD 0 then
    some .daily_cost
  else if truthyNat st.limits.monthly.tokens
      ∧ st.usage.monthly.tokens.total + totalTokens > (st.limits.monthly.tokens).getD 0 then
    some .monthly_tokens
  else if truthyNat st.limits.monthly.requests
      ∧ st.usage.monthly.requests + 1 > (st.limits.monthly.requests).getD 0 then
    some .monthly_requests
  else if truthyQ st.limits.monthly.cost
      ∧ st.usage.monthly.cost + estimatedCost > (st.limits.monthly.cost).getD 0 then
    some .monthly_cost
  else if (match st.models.lookup req.model with
           | some mc => decide (promptTokens > mc.contextWindow)
           | none => false) then
    some .context
  else none

/-- `tokens.total = tokens.prompt + tokens.completion`. -/
def TokenCounts.consistent (t : TokenCounts) : Prop :=
  t.total = t.prompt + t.completion

/-- The token invariant for a `modelBreakdown` entry. -/
def ModelUsage.consistent (m : ModelUsage) : Prop :=
  m.tokens.consistent

/-- The token invariant over every entry of a `modelBreakdown` map. -/
def breakdownConsistent (bd : List (String × ModelUsage)) : Prop :=
  ∀ e ∈ bd, (e.2).consistent

/-- The token invariant for the daily scope. -/
def DailyUsage.consistent (d : DailyUsage) : Prop :=
  d.tokens.consistent ∧ breakdownConsistent d.modelBreakdown

/-- The token invariant for the monthly scope. -/
def MonthlyUsage.consistent (m : MonthlyUsage) : Prop :=
  m.tokens.consistent ∧ breakdownConsistent m.modelBreakdown

/-- The token invariant for the lifetime scope. -/
def LifetimeUsage.consistent (l : LifetimeUsage) : Prop :=
  l.tokens.consistent ∧ breakdownConsistent l.modelBreakdown

/-- The token invariant over the whole ledger: every scope and every
`modelBreakdown` entry satisfies `total = prompt + completion`. -/
def Usage.consistent (u : Usage) : Prop :=
  u.daily.consistent ∧ u.monthly.consistent ∧ u.lifetime.consistent

/-- One step of a `recordUsage` call as the cooperative scheduler sees
it: the two `await`s are suspension points and the synchronous counter
block between them is a single atomic action. -/
inductive LedgerAction
  /-- `await this.initialize()` (a no-op once initialized). -/
  | awaitInit
  /-- the synchronous read-modify-write block of `recordUsage`. -/
  | mutate (info : UsageInfo) (nowMs : Int)
  /-- `await this.saveUsage()` (persistence, no ledger effect). -/
  | awaitSave

/-- Ledger effect of one scheduler step. -/
def execAction (models : List (String × ModelConfig)) (u : Usage) :
    LedgerAction → Usage
  | .awaitInit => u
  | .mutate info nowMs => recordUsageCore models u info nowMs
  | .awaitSave => u

/-- Ledger effect of a schedule (sequence of steps). -/
def execActions (models : List (String × ModelConfig)) (u : Usage)
    (l : List LedgerAction) : Usage :=
  l.foldl (execAction models) u

/-- The step sequence of one `recordUsage` call on an initialized
limiter. -/
def recordUsageCall (info : UsageInfo) (nowMs : Int) : List LedgerAction :=
  [.awaitInit, .mutate info nowMs, .awaitSave]

/-- `Interleave l1 l2 l`: `l` is an order-preserving merge of the step
sequences `l1` and `l2` (the schedules a single-threaded cooperative
scheduler can produce for two concurrent calls). -/
inductive Interleave :
    List LedgerAction → List LedgerAction → List LedgerAction → Prop
  | nil : Interleave [] [] []
  | left (a : LedgerAction) {l1 l2 l : List LedgerAction} :
      Interleave l1 l2 l → Interleave (a :: l1) l2 (a :: l)
  | right (a : LedgerAction) {l1 l2 l : List LedgerAction} :
      Interleave l1 l2 l → Interleave l1 (a :: l2) (a :: l)

/-- Tokens a scheduler step adds to `daily.tokens.total`. -/
def actionTokens : LedgerAction → Nat
  | .mutate info _ => info.promptTokens + info.completionTokens
  | _ => 0

/-- Total tokens a schedule adds to `daily.tokens.total`. -/
def scheduleTokens (l : List LedgerAction) : Nat :=
  (l.map actionTokens).sum

/-- An all-unlimited period limit triple. -/
def unlimitedPeriod : PeriodLimits :=
  ⟨none, none, none⟩

/-- An initialized limiter whose daily token limit is 100 (all other
limits unlimited) and whose current daily usage is 95 tokens. -/
def nearLimitState : State :=
  { models := defaultModels,
    limits := { daily := ⟨some 100, none, none⟩, monthly := unlimitedPeriod,
                perMinute := ⟨20⟩ },
    usage :=
      { daily := ⟨"2026-10-11", ⟨50, 45, 95⟩, 3, 1, []⟩,
        monthly := ⟨"2026-10", ⟨50, 45, 95⟩, 3, 1, []⟩,
        minutely := ⟨0, []⟩,
        lifetime := ⟨⟨50, 45, 95⟩, 3, 1, "2026-01-01", []⟩ },
    initDone := true }

/-- `nearLimitState` with its daily scope still keyed to the previous
day (the wall clock used below reads 2026-10-11). -/
def staleState : State :=
  { nearLimitState with
    usage :=
      { nearLimitState.usage with
        daily := { nearLimitState.usage.daily with date := "2026-10-10" } } }

/-- An initialized limiter with an empty ledger whose daily token limit
is the non-null value 0 (all other limits unlimited). -/
def zeroTokenLimitState : State :=
  { models := defaultModels,
    limits := { daily := ⟨some 0, none, none⟩, monthly := unlimitedPeriod,
                perMinute := ⟨20⟩ },
    usage := createEmptyUsage "2026-10-11" "2026-10" "2026-10-11T00:00:00.000Z" 0,
    initDone := true }

/-- An initialized limiter with the default configuration and an empty
ledger. -/
def freshState : State :=
  { models := defaultModels, limits := defaultLimits,
    usage := createEmptyUsage "2026-10-11" "2026-10" "2026-10-11T00:00:00.000Z" 0,
    initDone := true }

/-- `freshState` with a per-minute request limit of 0, so that every
request is rate-denied. -/
def zeroMinuteState : State :=
  { freshState with
    limits := { freshState.limits with perMinute := ⟨0⟩ } }

end RateLimiter

namespace AIAvatarService

/-- A server usage record (`prompt_tokens` / `completion_tokens` /
`total_tokens`); an absent `total_tokens` is the falsy 0. -/
structure TokenUsage where
  prompt_tokens : Nat
  completion_tokens : Nat
  total_tokens : Nat
  deriving Repr, DecidableEq

/-- The parsed JSON payload of one `data:` line, restricted to the fields
`callOpenAIStream` reads: `choices[0]?.delta?.content`,
`choices[0]?.finish_reason`, `usage`. -/
structure Frame where
  deltaContent : Option String
  finishReason : Option String
  usage : Option TokenUsage
  deriving Repr, DecidableEq

/-- One line of the SSE body as the decode loop classifies it. -/
inductive SSELine
  /-- `line.trim() === ''`. -/
  | blank
  /-- a line starting with a colon (SSE comment). -/
  | comment
  /-- `data: [DONE]` (the end sentinel, skipped). -/
  | dataDone
  /-- a `data: ` line whose payload parses as JSON. -/
  | dataFrame (f : Frame)
  /-- a `data: ` line whose payload fails to parse (logged, skipped). -/
  | dataMalformed
  /-- any other line (not starting with `data: `, silently skipped). -/
  | other
  deriving Repr, DecidableEq

/-- A chunk handed to `onChunk`: `{ content, accumulated, finished: false }`. -/
structure Chunk where
  content : String
  accumulated : String
  deriving Repr, DecidableEq, Inhabited

/-- The decode-loop state: `accumulatedContent`, the last captured
`tokenUsage`, and the chunks emitted so far (in emission order). -/
structure StreamState where
  accumulatedContent : String
  tokenUsage : TokenUsage
  emitted : List Chunk
  deriving Repr, DecidableEq

/-- Initial decode-loop state (`accumulatedContent = ''`, zero usage). -/
def initialStreamState : StreamState :=
  ⟨"", ⟨0, 0, 0⟩, []⟩

/-- Processing of one classified line inside the decode loop.  A content
delta (a truthy, hence nonempty, string) is appended to
`accumulatedContent` and emitted immediately with the accumulated-so-far
value; a usage-bearing frame overwrites `tokenUsage`; every other line
leaves the state unchanged. -/
def processLine (st : StreamState) (line : SSELine) : StreamState :=
  match line with
  | .dataFrame f =>
      let st :=
        match f.deltaContent with
        | some chunk =>
            if chunk ≠ "" then
              let acc := st.accumulatedContent ++ chunk
              { st with
                accumulatedContent := acc,
                emitted := st.emitted ++ [⟨chunk, acc⟩] }
            else st
        | none => st
      match f.usage with
      | some u => { st with tokenUsage := u }
      | none => st
  | _ => st

/-- The whole decode loop over the classified lines of the body. -/
def processLines (st : StreamState) (lines : List SSELine) : StreamState :=
  lines.foldl processLine st

/-- The usage fallback after the loop: if the captured record's
`total_tokens` is falsy (absent or 0), replace the whole record by the
heuristic estimate over the serialized message list and the accumulated
text. -/
def finalizeUsage (messagesJson accumulated : String) (u : TokenUsage) : TokenUsage :=
  if u.total_tokens = 0 then
    let p := RateLimiter.countTokens messagesJson
    let c := RateLimiter.countTokens accumulated
    ⟨p, c, p + c⟩
  else u

/-- The `{ content, usage }` record `callOpenAIStream` hands to
`onComplete` and returns. -/
structure CompletionResult where
  content : String
  usage : TokenUsage
  deriving Repr, DecidableEq

/-- Settlement of a normally completed stream: the accumulated text plus
the (possibly fallback-estimated) usage. -/
def completionResult (messagesJson : String) (st : StreamState) : CompletionResult :=
  ⟨st.accumulatedContent, finalizeUsage messagesJson st.accumulatedContent st.tokenUsage⟩

/-- How one `callOpenAIStream` call ends, as seen by its callbacks. -/
inductive StreamOutcome
  /-- the loop finished and `onComplete` fired with this result. -/
  | settled (result : CompletionResult)
  /-- `onError` fired with an `Error` whose message is this string; the
  exception is rethrown and `onComplete` never fires. -/
  | failed (message : String)
  deriving Repr, DecidableEq

/-- `callOpenAIStream` over a trace: the classified lines read before the
stream either ends normally or the awaited read rejects with
`AbortError` (caller cancellation). -/
def callOpenAIStream (messagesJson : String) (lines : List SSELine)
    (abortedMidStream : Bool) : StreamOutcome :=
  let st := processLines initialStreamState lines
  if abortedMidStream then .failed "Stream aborted by user"
  else .settled (completionResult messagesJson st)

/-- The `recordUsage` arguments forwarded to the rate limiter for one
stream, per outcome.  The sole `recordUsage` call site is the
`onComplete` callback of `generateResponseStream`; the abort and error
paths go through `onError` only. -/
def usageRecorded (outcome : StreamOutcome) : List RateLimiter.UsageInfo :=
  match outcome with
  | .settled result => [⟨"gpt-4", result.usage.prompt_tokens, result.usage.completion_tokens⟩]
  | .failed _ => []

/-- Whether the `reader.read()` promise of one loop iteration ever
settles, and after how many milliseconds. -/
inductive ReadResult
  /-- the read resolves after `afterMs` milliseconds. -/
  | resolved (afterMs : Int)
  /-- the read never settles (a fully quiescent connection). -/
  | never
  deriving Repr, DecidableEq

/-- What one iteration of the `while (true)` read loop does about
inactivity. -/
inductive IterOutcome
  /-- the loop-top check threw `Stream timeout - no data received for 30
  seconds`. -/
  | streamTimeoutThrow
  /-- the `Promise.race` 30s timer rejected with `Read timeout`. -/
  | readTimeoutThrow
  /-- the read settled and the iteration proceeds with its data. -/
  | proceed
  /-- the iteration is awaiting a read with no timer racing it; the
  session stays in this await indefinitely. -/
  | stuck
  deriving Repr, DecidableEq

/-- One iteration of the read loop.  `sinceLastChunkMs` is
`Date.now() - lastChunkTime` at the loop top; the 30s `Promise.race`
timer is installed only when an `abortController` was passed in the
options. -/
def streamIteration (hasAbortController : Bool) (sinceLastChunkMs : Int)
    (read : ReadResult) : IterOutcome :=
  if sinceLastChunkMs > 30000 then .streamTimeoutThrow
  else
    match read with
    | .resolved afterMs =>
        if hasAbortController ∧ afterMs > 30000 then .readTimeoutThrow
        else .proceed
    | .never =>
        if hasAbortController then .readTimeoutThrow
        else .stuck

/-- Whether `pat` is an initial segment of `s` (character lists). -/
def startsWithChars : List Char → List Char → Bool
  | [], _ => true
  | _ :: _, [] => false
  | p :: ps, c :: cs => p = c && startsWithChars ps cs

/-- Whether `pat` occurs somewhere in `s` (character lists). -/
def hasSubChars (pat : List Char) : List Char → Bool
  | [] => pat.isEmpty
  | c :: cs => startsWithChars pat (c :: cs) || hasSubChars pat cs

/-- Substring test used to embed `error.message.includes(...)`. -/
def containsSub (s pat : String) : Bool :=
  hasSubChars pat.toList s.toList

/-- The causes of failure the streaming path distinguishes. -/
inductive ErrorCause
  /-- the awaited fetch/read rejected with `AbortError`. -/
  | abortError
  /-- the response was not ok, with this HTTP status and the message the
  response body carried (if parseable). -/
  | httpError (status : Nat) (apiMessage : Option String)
  /-- the fetch itself failed (`Failed to fetch`). -/
  | fetchFailed
  /-- the loop-top inactivity check threw. -/
  | streamTimeout
  /-- the `Promise.race` read timer rejected. -/
  | readTimeout
  /-- any other exception, with its message. -/
  | otherError (message : String)
  deriving Repr, DecidableEq

/-- The message of the error thrown before the read loop for a non-ok
response, after the status-specific rewrites. -/
def httpErrorMessage (status : Nat) (apiMessage : Option String) : String :=
  if status = 429 then "Rate limit exceeded. Please try again later."
  else if status = 401 then "Invalid API key. Please check your settings."
  else if status = 500 ∨ status = 502 ∨ status = 503 then
    "OpenAI service is temporarily unavailable. Please try again."
  else
    match apiMessage with
    | some m => m
    | none => "API request failed"

/-- The message of the exception as it reaches the catch block. -/
def thrownMessage (cause : ErrorCause) : String :=
  match cause with
  | .abortError => "AbortError"
  | .httpError status apiMessage => httpErrorMessage status apiMessage
  | .fetchFailed => "Failed to fetch"
  | .streamTimeout => "Stream timeout - no data received for 30 seconds"
  | .readTimeout => "Read timeout"
  | .otherError m => m

/-- The message of the `Error` the catch block hands to `onError`:
`AbortError` becomes `Stream aborted by user`; otherwise a message
containing `Failed to fetch` or `timeout` is rewritten to a friendlier
one and anything else is passed through unchanged. -/
def onErrorMessage (cause : ErrorCause) : String :=
  match cause with
  | .abortError => "Stream aborted by user"
  | _ =>
      let m := thrownMessage cause
      if containsSub m "Failed to fetch" then
        "Network error. Please check your connection and try again."
      else if containsSub m "timeout" then
        "Request timed out. Please try again."
      else m

/-- The `streamError` message the background listener broadcasts: the
raw `error.message` string (there is no kind field). -/
structure StreamErrorEvent where
  action : String
  streamId : String
  error : String
  deriving Repr, DecidableEq

/-- The `onError` callback installed by the `generateResponseStream`
message handler: it forwards `error.message` as the `error` field. -/
def emitStreamError (streamId : String) (cause : ErrorCause) : StreamErrorEvent :=
  ⟨"streamError", streamId, onErrorMessage cause⟩

/-- Concatenation, in emission order, of the deltas of a chunk list. -/
def concatDeltas : List Chunk → String
  | [] => ""
  | c :: rest => c.content ++ concatDeltas rest

/-- The emission invariant of the decode loop: the concatenated emitted
deltas equal the accumulated text, and every emitted chunk carried the
accumulated-so-far value (the concatenation of the deltas up to and
including its own). -/
def emittedOk (st : StreamState) : Prop :=
  concatDeltas st.emitted = st.accumulatedContent
  ∧ ∀ i, i < st.emitted.length →
      (st.emitted.getD i default).accumulated
        = concatDeltas (st.emitted.take (i + 1))

/-- The closed set of failure kinds the specification prescribes for the
streaming path. -/
def claimedFailureKinds : List String :=
  ["transport", "auth", "remote_overload", "remote_error", "timeout", "cancelled"]

/-- A short demonstration body: two content deltas, a comment, the usage
frame and the end sentinel. -/
def demoLines : List SSELine :=
  [ .dataFrame ⟨some "Hel", none, none⟩,
    .comment,
    .dataFrame ⟨some "lo", none, some ⟨7, 3, 10⟩⟩,
    .blank,
    .dataDone ]

/-- A body that delivered one content delta before the caller
cancelled. -/
def abortedTraceLines : List SSELine :=
  [ .dataFrame ⟨some "Hello", none, none⟩ ]

end AIAvatarService

namespace RateLimiter

/-- A per-minute denial always carries the `rate` kind. -/
theorem checkMinuteLimit_denied_kind {st : State} {nowMs : Int}
    {t : LimitType} {r : Option Int}
    (h : checkMinuteLimit st nowMs = .denied t r) : t = .rate := by
  simp only [checkMinuteLimit] at h
  split_ifs at h
  simp_all

/-- A daily denial carries one of the three daily kinds. -/
theorem checkDailyLimits_denied_kind {st : State} {tokens : Nat} {cost : ℚ}
    {t : LimitType} {r : Option Int}
    (h : checkDailyLimits st tokens cost = .denied t r) :
    t = .daily_tokens ∨ t = .daily_requests ∨ t = .daily_cost := by
  simp only [checkDailyLimits] at h
  split_ifs at h <;> simp_all

/-- A monthly denial carries one of the three monthly kinds. -/
theorem checkMonthlyLimits_denied_kind {st : State} {tokens : Nat} {cost : ℚ}
    {t : LimitType} {r : Option Int}
    (h : checkMonthlyLimits st tokens cost = .denied t r) :
    t = .monthly_tokens ∨ t = .monthly_requests ∨ t = .monthly_cost := by
  simp only [checkMonthlyLimits] at h
  split_ifs at h <;> simp_all

/-- With a zero request cost and a daily ledger cost within its
configured limit, the daily check cannot deny for cost. -/
theorem checkDailyLimits_no_cost_denial {st : State} {tokens : Nat}
    {r : Option Int}
    (hle : ∀ l, st.limits.daily.cost = some l → st.usage.daily.cost ≤ l) :
    checkDailyLimits st tokens 0 ≠ .denied .daily_cost r := by
  intro h
  simp only [checkDailyLimits] at h
  split_ifs at h with h1 h2 h3 <;> simp_all
  rcases h3 with ⟨ht, hgt⟩
  cases hl : st.limits.daily.cost with
  | none => rw [hl] at ht; simp [truthyQ] at ht
  | some l =>
      have hlel := hle l hl
      rw [hl] at hgt
      simp at hgt
      linarith

/-- With a zero request cost and a monthly ledger cost within its
configured limit, the monthly check cannot deny for cost. -/
theorem checkMonthlyLimits_no_cost_denial {st : State} {tokens : Nat}
    {r : Option Int}
    (hle : ∀ l, st.limits.monthly.cost = some l → st.usage.monthly.cost ≤ l) :
    checkMonthlyLimits st tokens 0 ≠ .denied .monthly_cost r := by
  intro h
  simp only [checkMonthlyLimits] at h
  split_ifs at h with h1 h2 h3 <;> simp_all
  rcases h3 with ⟨ht, hgt⟩
  cases hl : st.limits.monthly.cost with
  | none => rw [hl] at ht; simp [truthyQ] at ht
  | some l =>
      have hlel := hle l hl
      rw [hl] at hgt
      simp at hgt
      linarith

/-- Claim C6: for every model in the pricing table the cost is
`promptTokens/1000` times its prompt rate plus `completionTokens/1000`
times its completion rate (concretely, rates 0.03/0.06 with 1000 prompt
and 500 completion tokens give 0.06); a model absent from the table
costs 0; and pricing absence never makes the admission check deny an
otherwise-valid request for a pricing-dependent reason (cost limits or
context window). -/
theorem calculateCost_spec :
    (∀ (models : List (String × ModelConfig)) (model : String) (mc : ModelConfig)
        (p c : Nat), models.lookup model = some mc →
        calculateCost models model p c
          = (p / 1000 : ℚ) * mc.prompt + (c / 1000 : ℚ) * mc.completion)
    ∧ (∀ (models : List (String × ModelConfig)) (model : String) (p c : Nat),
        models.lookup model = none → calculateCost models model p c = 0)
    ∧ calculateCost [("m", ⟨3/100, 6/100, 8192⟩)] "m" 1000 500 = 6/100
    ∧ (∀ (st : State) (req : RequestInfo) (nowMs : Int) (t : LimitType)
        (r : Option Int),
        st.models.lookup req.model = none →
        (∀ l, st.limits.daily.cost = some l → st.usage.daily.cost ≤ l) →
        (∀ l, st.limits.monthly.cost = some l → st.usage.monthly.cost ≤ l) →
        checkRequest st req nowMs = .denied t r →
        t ≠ .daily_cost ∧ t ≠ .monthly_cost ∧ t ≠ .context) := by
  refine ⟨?_, ?_, ?_, ?_⟩
  · intro models model mc p c h
    unfold calculateCost
    rw [h]
  · intro models model p c h
    unfold calculateCost
    rw [h]
  · norm_num [calculateCost, List.lookup]
  · intro st req nowMs t r hlook hd hm hden
    have hc0 : calculateCost st.models req.model (countTokens req.prompt)
        req.estimatedCompletion = 0 := by
      unfold calculateCost
      rw [hlook]
    simp only [checkRequest, hc0, hlook] at hden
    cases hmin : checkMinuteLimit st nowMs with
    | denied t1 r1 =>
        rw [hmin] at hden
        simp only [CheckResult.denied.injEq] at hden
        obtain ⟨ht, hr⟩ := hden
        have hk := checkMinuteLimit_denied_kind hmin
        subst ht
        rw [hk]
        exact ⟨by decide, by decide, by decide⟩
    | allowedWith a b =>
        rw [hmin] at hden
        cases hdaily : checkDailyLimits st (countTokens req.prompt + req.estimatedCompletion) 0 with
        | denied t1 r1 =>
            rw [hdaily] at hden
            simp only [CheckResult.denied.injEq] at hden
            obtain ⟨ht, hr⟩ := hden
            subst ht
            rcases checkDailyLimits_denied_kind hdaily with hk | hk | hk
            · rw [hk]
              exact ⟨by decide, by decide, by decide⟩
            · rw [hk]
              exact ⟨by decide, by decide, by decide⟩
            · rw [hk] at hdaily
              exact absurd hdaily (checkDailyLimits_no_cost_denial hd)
        | allowedWith a1 b1 =>
            rw [hdaily] at hden
            cases hmonth : checkMonthlyLimits st (countTokens req.prompt + req.estimatedCompletion) 0 with
            | denied t1 r1 =>
                rw [hmonth] at hden
                simp only [CheckResult.denied.injEq] at hden
                obtain ⟨ht, hr⟩ := hden
                subst ht
                rcases checkMonthlyLimits_denied_kind hmonth with hk | hk | hk
                · rw [hk]
                  exact ⟨by decide, by decide, by decide⟩
                · rw [hk]
                  exact ⟨by decide, by decide, by decide⟩
                · rw [hk] at hmonth
                  exact absurd hmonth (checkMonthlyLimits_no_cost_denial hm)
            | allowedWith a2 b2 =>
                rw [hmonth] at hden
                simp at hden

/-- Concrete instantiation of `calculateCost_spec`. -/
theorem calculateCost_spec_witness :
    calculateCost defaultModels "gpt-4" 1000 500
      = (1000 / 1000 : ℚ) * (3/100) + (500 / 1000 : ℚ) * (6/100)
    ∧ calculateCost defaultModels "no-such-model" 1000 500 = 0
    ∧ (LimitType.rate ≠ LimitType.daily_cost ∧ LimitType.rate ≠ .monthly_cost
        ∧ LimitType.rate ≠ .context) := by
  refine ⟨calculateCost_spec.1 defaultModels "gpt-4" ⟨3/100, 6/100, 8192⟩ 1000 500 (by rfl),
    calculateCost_spec.2.1 defaultModels "no-such-model" 1000 500 (by rfl),
    calculateCost_spec.2.2.2 zeroMinuteState ⟨"no-such-model", "", 10⟩ 0 .rate none
      (by rfl) ?_ ?_ (by rfl)⟩
  · intro l hl
    have hl10 : (some (10 : ℚ)) = some l := hl
    have hl2 : l = 10 := by
      injection hl10 with h
      exact h.symm
    subst hl2
    show (0 : ℚ) ≤ 10
    norm_num
  · intro l hl
    have hl200 : (some (200 : ℚ)) = some l := hl
    have hl2 : l = 200 := by
      injection hl200 with h
      exact h.symm
    subst hl2
    show (0 : ℚ) ≤ 200
    norm_num

/-- Claim C4 (amended): the admission check evaluates limits in the
fixed order per-minute rate, then daily with precedence
tokens→requests→cost, then monthly with the same precedence, then
context window, and denies with the kind of the first violated limit
that is non-null and nonzero (a zero limit is treated as unlimited by
the truthiness test); in particular, with a daily token limit of 100
and current daily usage 95, a request with estimated total 10 tokens is
denied with kind daily_tokens. -/
theorem checkRequest_order_spec :
    (∀ (st : State) (req : RequestInfo) (nowMs : Int),
      admissionKind (checkRequest st req nowMs) = specFirstViolatedEnabled st req)
    ∧ checkRequest nearLimitState ⟨"gpt-4", "", 10⟩ 0 = .denied .daily_tokens none := by
  constructor
  · intro st req nowMs
    simp only [checkRequest, specFirstViolatedEnabled, checkMinuteLimit,
      checkDailyLimits, checkMonthlyLimits, admissionKind]
    split_ifs <;> (try simp_all) <;>
      (cases hl : List.lookup req.model st.models <;> (try simp_all) <;>
        rw [if_neg (Nat.not_lt.mpr (by assumption))])
  · rfl

/-- Claim C4 as stated fails at a zero limit: with a configured
(non-null) daily token limit of 0 the claim's rule denies with kind
daily_tokens, but the code's truthiness test skips the zero limit and
allows the request. -/
theorem checkRequest_zero_limit_counterexample :
    specFirstViolatedNonNull zeroTokenLimitState ⟨"gpt-4", "", 10⟩
      = some .daily_tokens
    ∧ admissionKind (checkRequest zeroTokenLimitState ⟨"gpt-4", "", 10⟩ 0) = none := by
  exact ⟨by rfl, by rfl⟩

/-- Claim C1 fails on the code: `checkRequest` and `recordUsage` begin
with `await this.initialize()`, which runs `checkAndResetPeriods` only
on the very first call; on an initialized limiter whose stored daily
date is stale, the admission check reads the stale counters (denying a
request a rolled-over ledger would admit) and `recordUsage` adds to the
scope still keyed to the old date. -/
theorem rollover_skipped_after_init :
    staleState.initDone = true
    ∧ staleState.usage.daily.date ≠ "2026-10-11"
    ∧ (checkRequestEntry staleState ⟨"gpt-4", "", 10⟩ "2026-10-11" "2026-10" 0).2
        = .denied .daily_tokens none
    ∧ admissionKind
        (checkRequest
          { staleState with
            usage := checkAndResetPeriods staleState.usage "2026-10-11" "2026-10" }
          ⟨"gpt-4", "", 10⟩ 0) = none
    ∧ (recordUsageEntry staleState ⟨"gpt-4", 10, 0⟩ "2026-10-11" "2026-10" 0).usage.daily.date
        = "2026-10-10"
    ∧ (recordUsageEntry staleState ⟨"gpt-4", 10, 0⟩ "2026-10-11" "2026-10" 0).usage.daily.tokens.total
        = 105 := by
  refine ⟨rfl, by decide, by rfl, by rfl, by rfl, by rfl⟩

/-- `bumpTokens` with a total increment equal to the prompt plus
completion increments preserves the token invariant. -/
theorem bumpTokens_consistent {t : TokenCounts} (h : t.consistent) (p c : Nat) :
    (bumpTokens t p c (p + c)).consistent := by
  unfold TokenCounts.consistent at *
  unfold bumpTokens
  simp
  omega

/-- `bumpModelUsage` preserves the token invariant of an entry. -/
theorem bumpModelUsage_consistent {m : ModelUsage} (h : m.consistent) (p c : Nat)
    (cost : ℚ) : (bumpModelUsage m p c (p + c) cost).consistent :=
  bumpTokens_consistent h p c

/-- The zero breakdown entry satisfies the token invariant. -/
theorem emptyModelUsage_consistent : emptyModelUsage.consistent := rfl

/-- `bumpBreakdown` preserves the token invariant of every entry. -/
theorem bumpBreakdown_consistent {bd : List (String × ModelUsage)}
    (h : breakdownConsistent bd) (model : String) (p c : Nat) (cost : ℚ) :
    breakdownConsistent (bumpBreakdown bd model p c (p + c) cost) := by
  intro e he
  unfold bumpBreakdown at he
  split at he <;>
    rcases List.mem_map.mp he with ⟨a, ha, rfl⟩
  · rcases List.mem_append.mp ha with ha' | ha'
    · by_cases hm : a.1 = model
      · simp only [hm, if_pos rfl]
        exact bumpModelUsage_consistent (h a ha') p c cost
      · simp only [if_neg hm]
        exact h a ha'
    · have hae : a = (model, emptyModelUsage) := by simpa using ha'
      subst hae
      simp only [if_pos rfl]
      exact bumpModelUsage_consistent emptyModelUsage_consistent p c cost
  · by_cases hm : a.1 = model
    · simp only [hm, if_pos rfl]
      exact bumpModelUsage_consistent (h a ha) p c cost
    · simp only [if_neg hm]
      exact h a ha

/-- A fresh zeroed daily scope satisfies the invariant. -/
theorem freshDaily_consistent (d : String) : (freshDaily d).consistent :=
  ⟨rfl, fun e he => absurd he (List.not_mem_nil e)⟩

/-- A fresh zeroed monthly scope satisfies the invariant. -/
theorem freshMonthly_consistent (m : String) : (freshMonthly m).consistent :=
  ⟨rfl, fun e he => absurd he (List.not_mem_nil e)⟩

/-- Claim C3: `tokens.total = tokens.prompt + tokens.completion` holds
of every scope and every `modelBreakdown` entry of the freshly created
empty ledger, and is preserved by the `recordUsage` counter block, by
the period rollover and by `resetUsage`. -/
theorem usage_invariant_spec :
    (∀ (d m sd : String) (n : Int), (createEmptyUsage d m sd n).consistent)
    ∧ (∀ (models : List (String × ModelConfig)) (u : Usage) (info : UsageInfo)
        (nowMs : Int), u.consistent → (recordUsageCore models u info nowMs).consistent)
    ∧ (∀ (u : Usage) (d m : String), u.consistent →
        (checkAndResetPeriods u d m).consistent)
    ∧ (∀ (u : Usage) (p : Period) (d m : String), u.consistent →
        (resetUsage u p d m).consistent) := by
  refine ⟨?_, ?_, ?_, ?_⟩
  · intro d m sd n
    exact ⟨⟨rfl, fun e he => absurd he (List.not_mem_nil e)⟩,
      ⟨rfl, fun e he => absurd he (List.not_mem_nil e)⟩,
      ⟨rfl, fun e he => absurd he (List.not_mem_nil e)⟩⟩
  · intro models u info nowMs h
    obtain ⟨⟨hd, hdb⟩, ⟨hm2, hmb⟩, ⟨hl, hlb⟩⟩ := h
    exact ⟨⟨bumpTokens_consistent hd _ _, bumpBreakdown_consistent hdb _ _ _ _⟩,
      ⟨bumpTokens_consistent hm2 _ _, bumpBreakdown_consistent hmb _ _ _ _⟩,
      ⟨bumpTokens_consistent hl _ _, bumpBreakdown_consistent hlb _ _ _ _⟩⟩
  · intro u d m h
    obtain ⟨hd, hm2, hl⟩ := h
    simp only [checkAndResetPeriods]
    split_ifs <;>
      exact ⟨by first | exact freshDaily_consistent _ | exact hd,
        by first | exact freshMonthly_consistent _ | exact hm2,
        hl⟩
  · intro u p d m h
    obtain ⟨hd, hm2, hl⟩ := h
    cases p with
    | daily => exact ⟨freshDaily_consistent _, hm2, hl⟩
    | monthly => exact ⟨hd, freshMonthly_consistent _, hl⟩

/-- Concrete instantiation of `usage_invariant_spec`. -/
theorem usage_invariant_spec_witness :
    (createEmptyUsage "2026-10-11" "2026-10" "2026-10-11T00:00:00.000Z" 0).consistent
    ∧ (recordUsageCore defaultModels
        (createEmptyUsage "2026-10-11" "2026-10" "2026-10-11T00:00:00.000Z" 0)
        ⟨"gpt-4", 3, 4⟩ 5).consistent :=
  ⟨usage_invariant_spec.1 _ _ _ _,
   usage_invariant_spec.2.1 _ _ _ _ (usage_invariant_spec.1 _ _ _ _)⟩

/-- One scheduler step adds its `actionTokens` to `daily.tokens.total`. -/
theorem execAction_daily_total (models : List (String × ModelConfig)) (u : Usage)
    (a : LedgerAction) :
    (execAction models u a).daily.tokens.total
      = u.daily.tokens.total + actionTokens a := by
  cases a with
  | awaitInit => simp [execAction, actionTokens]
  | awaitSave => simp [execAction, actionTokens]
  | mutate info nowMs => simp [execAction, actionTokens, recordUsageCore, bumpTokens]

/-- A whole schedule adds its `scheduleTokens` to `daily.tokens.total`. -/
theorem execActions_daily_total (models : List (String × ModelConfig)) (u : Usage)
    (l : List LedgerAction) :
    (execActions models u l).daily.tokens.total
      = u.daily.tokens.total + scheduleTokens l := by
  induction l generalizing u with
  | nil => simp [execActions, scheduleTokens]
  | cons a rest ih =>
      simp only [execActions, List.foldl_cons, scheduleTokens, List.map_cons, List.sum_cons]
      rw [show List.foldl (execAction models) (execAction models u a) rest
          = execActions models (execAction models u a) rest from rfl]
      rw [ih]
      rw [execAction_daily_total]
      unfold scheduleTokens
      omega

/-- An interleaving of two schedules carries the token increments of
both. -/
theorem interleave_scheduleTokens {l1 l2 l : List LedgerAction}
    (h : Interleave l1 l2 l) :
    scheduleTokens l = scheduleTokens l1 + scheduleTokens l2 := by
  induction h with
  | nil => rfl
  | left a h ih =>
      simp only [scheduleTokens, List.map_cons, List.sum_cons] at *
      omega
  | right a h ih =>
      simp only [scheduleTokens, List.map_cons, List.sum_cons] at *
      omega

/-- Claim C5: two concurrent `recordUsage` calls of 100 prompt tokens
each, interleaved at their `await` suspension points, leave
`daily.tokens.total = 200` from an empty ledger under every
interleaving — the synchronous read-modify-write block contains no
suspension point, so no lost update is possible. -/
theorem concurrent_recordUsage_no_lost_update :
    ∀ (t1 t2 : Int) (l : List LedgerAction),
      Interleave (recordUsageCall ⟨"gpt-4", 100, 0⟩ t1)
        (recordUsageCall ⟨"gpt-4", 100, 0⟩ t2) l →
      (execActions defaultModels
          (createEmptyUsage "2026-10-11" "2026-10" "2026-10-11T00:00:00.000Z" 0)
          l).daily.tokens.total = 200 := by
  intro t1 t2 l h
  rw [execActions_daily_total, interleave_scheduleTokens h]
  rfl

/-- Concrete instantiation of `concurrent_recordUsage_no_lost_update`
on a genuinely alternating schedule. -/
theorem concurrent_recordUsage_no_lost_update_witness :
    (execActions defaultModels
        (createEmptyUsage "2026-10-11" "2026-10" "2026-10-11T00:00:00.000Z" 0)
        [.awaitInit, .awaitInit, .mutate ⟨"gpt-4", 100, 0⟩ 1,
          .mutate ⟨"gpt-4", 100, 0⟩ 2, .awaitSave, .awaitSave]).daily.tokens.total
      = 200 :=
  concurrent_recordUsage_no_lost_update 1 2 _
    (.left _ (.right _ (.left _ (.right _ (.left _ (.right _ .nil))))))

end RateLimiter

namespace AIAvatarService

/-- `concatDeltas` distributes over list append. -/
theorem concatDeltas_append (a b : List Chunk) :
    concatDeltas (a ++ b) = concatDeltas a ++ concatDeltas b := by
  induction a with
  | nil => simp [concatDeltas]
  | cons c rest ih => simp [concatDeltas, ih, String.append_assoc]

/-- The initial decode state satisfies the emission invariant. -/
theorem emittedOk_initial : emittedOk initialStreamState := by
  constructor
  · rfl
  · intro i h
    simp [initialStreamState] at h

/-- Appending one nonempty delta preserves the emission invariant. -/
theorem emittedOk_append {st : StreamState} (h : emittedOk st) (chunk : String) :
    emittedOk
      { st with
        accumulatedContent := st.accumulatedContent ++ chunk,
        emitted := st.emitted ++ [(⟨chunk, st.accumulatedContent ++ chunk⟩ : Chunk)] } := by
  obtain ⟨h1, h2⟩ := h
  constructor
  · show concatDeltas (st.emitted ++ [(⟨chunk, st.accumulatedContent ++ chunk⟩ : Chunk)])
        = st.accumulatedContent ++ chunk
    rw [concatDeltas_append, h1]
    simp [concatDeltas]
  · intro i hi
    show ((st.emitted ++ [(⟨chunk, st.accumulatedContent ++ chunk⟩ : Chunk)]).getD i
          default).accumulated
        = concatDeltas
            ((st.emitted ++ [(⟨chunk, st.accumulatedContent ++ chunk⟩ : Chunk)]).take (i + 1))
    simp only [List.length_append, List.length_cons, List.length_nil] at hi
    rcases Nat.lt_or_ge i st.emitted.length with hlt | hge
    · rw [List.getD_append _ _ _ _ hlt,
        List.take_append_of_le_length (by omega), h2 i hlt]
    · have hie : i = st.emitted.length := by omega
      subst hie
      rw [List.getD_append_right _ _ _ _ (le_refl _)]
      rw [List.take_of_length_le (by simp)]
      rw [concatDeltas_append, h1]
      simp [concatDeltas]

/-- `processLine` preserves the emission invariant. -/
theorem processLine_emittedOk {st : StreamState} (h : emittedOk st) (line : SSELine) :
    emittedOk (processLine st line) := by
  cases line with
  | blank => exact h
  | comment => exact h
  | dataDone => exact h
  | dataMalformed => exact h
  | other => exact h
  | dataFrame f =>
      obtain ⟨dc, fr, us⟩ := f
      have hmid :
          emittedOk
            (match dc with
             | some chunk =>
                 if chunk ≠ "" then
                   { st with
                     accumulatedContent := st.accumulatedContent ++ chunk,
                     emitted := st.emitted
                       ++ [(⟨chunk, st.accumulatedContent ++ chunk⟩ : Chunk)] }
                 else st
             | none => st) := by
        cases dc with
        | none => exact h
        | some chunk =>
            show emittedOk
              (if chunk ≠ "" then
                { st with
                  accumulatedContent := st.accumulatedContent ++ chunk,
                  emitted := st.emitted
                    ++ [(⟨chunk, st.accumulatedContent ++ chunk⟩ : Chunk)] }
               else st)
            by_cases hc : chunk ≠ ""
            · rw [if_pos hc]
              exact emittedOk_append h chunk
            · rw [if_neg hc]
              exact h
      cases us with
      | some u => exact hmid
      | none => exact hmid

/-- The emission invariant holds after processing any line list. -/
theorem processLines_emittedOk {st : StreamState} (h : emittedOk st)
    (lines : List SSELine) : emittedOk (processLines st lines) := by
  induction lines generalizing st with
  | nil => exact h
  | cons line rest ih => exact ih (processLine_emittedOk h line)

/-- Claim C7: each decoded content delta appends to the accumulated
text and is emitted immediately with the accumulated-so-far value, and
the concatenation of all emitted deltas, in emission order, equals the
final accumulated text delivered at settlement. -/
theorem stream_concat_spec (messagesJson : String) (lines : List SSELine) :
    concatDeltas (processLines initialStreamState lines).emitted
      = (processLines initialStreamState lines).accumulatedContent
    ∧ (∀ i, i < (processLines initialStreamState lines).emitted.length →
        ((processLines initialStreamState lines).emitted.getD i default).accumulated
          = concatDeltas ((processLines initialStreamState lines).emitted.take (i + 1)))
    ∧ (completionResult messagesJson (processLines initialStreamState lines)).content
      = (processLines initialStreamState lines).accumulatedContent := by
  have h := processLines_emittedOk emittedOk_initial lines
  exact ⟨h.1, h.2, rfl⟩

/-- Concrete instantiation of `stream_concat_spec` on `demoLines`. -/
theorem stream_concat_spec_witness :
    concatDeltas (processLines initialStreamState demoLines).emitted
      = (processLines initialStreamState demoLines).accumulatedContent
    ∧ ((processLines initialStreamState demoLines).emitted.getD 0 default).accumulated
        = concatDeltas ((processLines initialStreamState demoLines).emitted.take 1) :=
  ⟨(stream_concat_spec "[]" demoLines).1,
   (stream_concat_spec "[]" demoLines).2.1 0 (by decide)⟩

/-- Claim C2 fails on the code: after a caller cancellation the catch
block fires `onError` with `Stream aborted by user` and rethrows;
`onComplete` — the sole `recordUsage` call site — never runs, so the
accrued partial usage (here the delta `Hello`) is never billed. -/
theorem abort_bills_nothing :
    (processLines initialStreamState abortedTraceLines).accumulatedContent = "Hello"
    ∧ callOpenAIStream "[]" abortedTraceLines true = .failed "Stream aborted by user"
    ∧ usageRecorded (callOpenAIStream "[]" abortedTraceLines true) = [] :=
  ⟨rfl, rfl, rfl⟩

/-- Claim C10: when the captured usage record has `total_tokens` absent
or 0 (including an explicitly all-zero server report), the whole record
handed to the completion callback — and therefore to `recordUsage` — is
replaced by the heuristic estimate: `countTokens` of the serialized
message list, `countTokens` of the accumulated text, and their sum. -/
theorem usage_fallback_spec (messagesJson : String) (st : StreamState)
    (h : st.tokenUsage.total_tokens = 0) :
    (completionResult messagesJson st).usage
      = ⟨RateLimiter.countTokens messagesJson,
         RateLimiter.countTokens st.accumulatedContent,
         RateLimiter.countTokens messagesJson
           + RateLimiter.countTokens st.accumulatedContent⟩
    ∧ usageRecorded (.settled (completionResult messagesJson st))
        = [⟨"gpt-4", RateLimiter.countTokens messagesJson,
            RateLimiter.countTokens st.accumulatedContent⟩] := by
  have hu : finalizeUsage messagesJson st.accumulatedContent st.tokenUsage
      = ⟨RateLimiter.countTokens messagesJson,
         RateLimiter.countTokens st.accumulatedContent,
         RateLimiter.countTokens messagesJson
           + RateLimiter.countTokens st.accumulatedContent⟩ := by
    unfold finalizeUsage
    rw [if_pos h]
  constructor
  · exact hu
  · simp [usageRecorded, completionResult, hu]

/-- Concrete instantiation of `usage_fallback_spec` on a stream whose
server reported all-zero usage. -/
theorem usage_fallback_spec_witness :
    (completionResult "[]" ⟨"Hi", ⟨0, 0, 0⟩, []⟩).usage
      = ⟨RateLimiter.countTokens "[]", RateLimiter.countTokens "Hi",
         RateLimiter.countTokens "[]" + RateLimiter.countTokens "Hi"⟩ :=
  (usage_fallback_spec "[]" ⟨"Hi", ⟨0, 0, 0⟩, []⟩ rfl).1

/-- Claim C8 as stated fails: a session started without an
abortController whose read never resolves sits in the await forever —
it is never forced into a timeout failure. -/
theorem stream_timeout_counterexample :
    streamIteration false 0 .never = .stuck
    ∧ IterOutcome.stuck ≠ .streamTimeoutThrow
    ∧ IterOutcome.stuck ≠ .readTimeoutThrow :=
  ⟨rfl, by decide, by decide⟩

/-- Claim C8 (amended): a read left idle for more than 30 seconds is
forced into a timeout failure only for sessions started with an
abortController (via the `Promise.race` timer); the loop-top inactivity
check fires for any session once more than 30 seconds have elapsed at
the top of an iteration; but a session without an abortController whose
read never resolves waits forever. -/
theorem stream_timeout_spec :
    (∀ (hasAC : Bool) (s : Int) (read : ReadResult), s > 30000 →
      streamIteration hasAC s read = .streamTimeoutThrow)
    ∧ (∀ (s afterMs : Int), s ≤ 30000 → afterMs > 30000 →
      streamIteration true s (.resolved afterMs) = .readTimeoutThrow)
    ∧ (∀ s : Int, s ≤ 30000 → streamIteration true s .never = .readTimeoutThrow)
    ∧ (∀ s : Int, s ≤ 30000 → streamIteration false s .never = .stuck) := by
  refine ⟨?_, ?_, ?_, ?_⟩
  · intro hasAC s read h
    simp [streamIteration, h]
  · intro s afterMs hs ha
    have h1 : ¬(s > 30000) := by omega
    simp [streamIteration, h1, ha]
  · intro s hs
    have h1 : ¬(s > 30000) := by omega
    simp [streamIteration, h1]
  · intro s hs
    have h1 : ¬(s > 30000) := by omega
    simp [streamIteration, h1]

/-- Concrete instantiation of `stream_timeout_spec`. -/
theorem stream_timeout_spec_witness :
    streamIteration true 40000 .never = .streamTimeoutThrow
    ∧ streamIteration true 0 (.resolved 31000) = .readTimeoutThrow
    ∧ streamIteration true 0 .never = .readTimeoutThrow
    ∧ streamIteration false 0 .never = .stuck :=
  ⟨stream_timeout_spec.1 true 40000 .never (by norm_num),
   stream_timeout_spec.2.1 0 31000 (by norm_num) (by norm_num),
   stream_timeout_spec.2.2.1 0 (by norm_num),
   stream_timeout_spec.2.2.2 0 (by norm_num)⟩

/-- Claim C9 as stated fails: the `streamError` event surfaced for a
cancelled stream carries the raw message string `Stream aborted by
user` in its `error` field, which is not drawn from the claimed closed
kind set, and the event has no kind field at all. -/
theorem streamError_counterexample :
    emitStreamError "s1" .abortError
      = ⟨"streamError", "s1", "Stream aborted by user"⟩
    ∧ "Stream aborted by user" ∉ claimedFailureKinds :=
  ⟨rfl, by decide⟩

/-- Claim C9 (amended): every failure the streaming coordinator
surfaces to the caller carries a human-readable message string in the
event error field — rewritten to a fixed friendly message for the known
causes (abort, network failure, both timeouts, and the 401/429/5xx HTTP
statuses) — not a machine-readable kind from a closed enum. -/
theorem streamError_message_spec :
    (∀ (streamId : String) (cause : ErrorCause),
      emitStreamError streamId cause
        = ⟨"streamError", streamId, onErrorMessage cause⟩)
    ∧ onErrorMessage .abortError = "Stream aborted by user"
    ∧ onErrorMessage .fetchFailed
        = "Network error. Please check your connection and try again."
    ∧ onErrorMessage .streamTimeout = "Request timed out. Please try again."
    ∧ onErrorMessage .readTimeout = "Request timed out. Please try again."
    ∧ onErrorMessage (.httpError 401 none)
        = "Invalid API key. Please check your settings."
    ∧ onErrorMessage (.httpError 429 none)
        = "Rate limit exceeded. Please try again later."
    ∧ onErrorMessage (.httpError 503 none)
        = "OpenAI service is temporarily unavailable. Please try again." := by
  refine ⟨fun streamId cause => rfl, rfl, ?_, ?_, ?_, ?_, ?_, ?_⟩ <;> decide

end AIAvatarService
